import Mathlib

/-!
Shallow embedding of the SFFS flash filesystem core (src/sffs.c, src/sffs.h)
and proofs about its metadata engine, page lookup and write path.

Modelling conventions:
* C `uint32_t`/`uint16_t`/`uint8_t` values are `Nat`; wrap-around is written
  explicitly with `% 4294967296` where the C arithmetic can overflow.
* The flash medium is modelled structurally: a list of sectors, each holding
  its metadata header, its array of `data_pages_per_sector` metadata items and
  its data pages (lists of bytes).  An item index `(sector, page)` stands for
  the byte address `sector * sector_size + sizeof(header) + page * sizeof(item)`
  and a data page `(sector, page)` for the byte address
  `sector * sector_size + (first_data_page + page) * page_size` computed by
  `sffs_page_addr`; the mapping is bijective, so structural reads/writes model
  `sffs_cached_read`/`sffs_cached_write` at those addresses.
* Reads and writes on the structural medium are total (the emulator's
  `flash_page_read`/`flash_page_write` succeed on in-range addresses);
  out-of-range accesses return default values, as no claim depends on them.
* Functions returning `int32_t` status codes return `Int`; lookups that can
  fail return `Option` (with `none` standing for the NOT_FOUND code).
* Every `sffs_cached_write` performed by an operation is also recorded, in
  program order, in a trace of `FlashWrite` events, so that the order of
  medium updates within a call is observable.
* C `assert` is modelled as in an NDEBUG build (no effect); the `assert(0)`
  fallthrough of `sffs_update_sector_metadata` returns its FAILED code.
-/

/-- On-media magic for a metadata (sector) header, from src/sffs.h. -/
def SFFS_METADATA_MAGIC : Nat := 0x87985214

/-- Sector state codes, from src/sffs.h. -/
def SFFS_SECTOR_STATE_ERASED : Nat := 0xDE

def SFFS_SECTOR_STATE_USED : Nat := 0xD6

def SFFS_SECTOR_STATE_FULL : Nat := 0x56

def SFFS_SECTOR_STATE_DIRTY : Nat := 0x46

/-- Modelled from the spec: `SFFS_SECTOR_STATE_OLD` is used by src/sffs.c
(sector fully reclaimable, §3 of the spec) but no source file under src/
defines its byte code and §6 of the spec lists no code for it either.  Any
byte distinct from the four defined sector-state codes is faithful; 0x06 is
chosen (a further 1→0 refinement of DIRTY = 0x46). -/
def SFFS_SECTOR_STATE_OLD : Nat := 0x06

/-- Page state codes, from src/sffs.h. -/
def SFFS_PAGE_STATE_ERASED : Nat := 0xB7

def SFFS_PAGE_STATE_USED : Nat := 0xB5

def SFFS_PAGE_STATE_MOVING : Nat := 0x35

def SFFS_PAGE_STATE_RESERVED : Nat := 0x34

def SFFS_PAGE_STATE_OLD : Nat := 0x24

/-- Status codes defined in src/sffs.h. -/
def SFFS_METADATA_HEADER_CHECK_OK : Int := 0

def SFFS_METADATA_HEADER_CHECK_FAILED : Int := -1

/-- Modelled from the spec: src/sffs.c returns `SFFS_UPDATE_SECTOR_METADATA_OK`
and `..._FAILED` but no file under src/ defines their values; the spec (§7)
has all non-fatal errors surface through return codes, and every `*_OK` code
in src/sffs.h is 0 with the paired `*_FAILED` being -1. -/
def SFFS_UPDATE_SECTOR_METADATA_OK : Int := 0

def SFFS_UPDATE_SECTOR_METADATA_FAILED : Int := -1

/-- Modelled from the spec: src/sffs.c returns `SFFS_WRITE_OK` /
`SFFS_WRITE_FAILED` from `sffs_write` but no file under src/ defines them;
values follow the src/sffs.h convention (OK = 0, FAILED = -1). -/
def SFFS_WRITE_OK : Int := 0

def SFFS_WRITE_FAILED : Int := -1

/-- On-media metadata item describing one data page (struct sffs_metadata_item,
src/sffs.h): file id, logical block index, page state, used size. -/
structure SffsMetadataItem where
  file_id : Nat
  block : Nat
  state : Nat
  size : Nat
  reserved : Nat
deriving DecidableEq, Repr

/-- On-media sector header (struct sffs_metadata_header, src/sffs.h). -/
structure SffsMetadataHeader where
  magic : Nat
  state : Nat
  metadata_page_count : Nat
  metadata_item_cound : Nat
  reserved : Nat
deriving DecidableEq, Repr

/-- One sector of the structural medium: header, the per-data-page metadata
item table, and the data pages themselves (each a list of bytes). -/
structure SffsSector where
  header : SffsMetadataHeader
  items : List SffsMetadataItem
  data : List (List Nat)
deriving DecidableEq, Repr

/-- The flash medium: one `SffsSector` per sector. -/
abbrev SffsMedium := List SffsSector

/-- In-memory filesystem geometry (struct sffs, src/sffs.h); the flash device
pointer is replaced by passing the `SffsMedium` explicitly. -/
structure Sffs where
  page_size : Nat
  sector_size : Nat
  sector_count : Nat
  data_pages_per_sector : Nat
  first_data_page : Nat
deriving DecidableEq, Repr

/-- A data-page coordinate (struct sffs_page used by src/sffs.c). -/
structure SffsPage where
  sector : Nat
  page : Nat
deriving DecidableEq, Repr

/-- Open file session (struct sffs_file as used by src/sffs.c: `pos`,
`file_id` and the `fs` pointer, which is `none` when NULL). -/
structure SffsFile where
  pos : Nat
  file_id : Nat
  fs : Option Sffs
deriving DecidableEq, Repr

/-- Default junk values returned for out-of-range structural reads. -/
def sffsItemDefault : SffsMetadataItem := ⟨0, 0, 0, 0, 0⟩

def sffsHeaderDefault : SffsMetadataHeader := ⟨0, 0, 0, 0, 0⟩

def sffsSectorDefault : SffsSector := ⟨sffsHeaderDefault, [], []⟩

/-- One primitive medium write (`sffs_cached_write`), as recorded in traces:
a metadata-item write, a sector-header write, or a data-page write. -/
inductive FlashWrite where
  | itemWrite (sector page : Nat) (item : SffsMetadataItem)
  | headerWrite (sector : Nat) (header : SffsMetadataHeader)
  | dataWrite (sector page : Nat) (bytes : List Nat)
deriving DecidableEq, Repr

/-- Structural read of a sector header (the `sffs_cached_read` of
`sizeof(header)` bytes at `sector * sector_size`). -/
def sffsReadHeader (m : SffsMedium) (sector : Nat) : SffsMetadataHeader :=
  (m.getD sector sffsSectorDefault).header

/-- Structural read of a data page's bytes (the `sffs_cached_read` at the
address computed by `sffs_page_addr`). -/
def sffsReadData (m : SffsMedium) (sector page : Nat) : List Nat :=
  (m.getD sector sffsSectorDefault).data.getD page []

/-- Structural write of a metadata item. -/
def sffsWriteItem (m : SffsMedium) (sector page : Nat) (item : SffsMetadataItem) :
    SffsMedium :=
  m.set sector { m.getD sector sffsSectorDefault with
    items := (m.getD sector sffsSectorDefault).items.set page item }

/-- Structural write of a sector header. -/
def sffsWriteHeader (m : SffsMedium) (sector : Nat) (header : SffsMetadataHeader) :
    SffsMedium :=
  m.set sector { m.getD sector sffsSectorDefault with header := header }

/-- Structural write of a data page. -/
def sffsWriteData (m : SffsMedium) (sector page : Nat) (bytes : List Nat) :
    SffsMedium :=
  m.set sector { m.getD sector sffsSectorDefault with
    data := (m.getD sector sffsSectorDefault).data.set page bytes }

/-- sffs_metadata_header_check (src/sffs.c:242): the only check performed is
that the magic number equals `SFFS_METADATA_MAGIC`. -/
def sffs_metadata_header_check (fs : Sffs) (header : SffsMetadataHeader) : Int :=
  if header.magic ≠ SFFS_METADATA_MAGIC then
    SFFS_METADATA_HEADER_CHECK_FAILED
  else
    SFFS_METADATA_HEADER_CHECK_OK

/-- sffs_get_page_metadata (src/sffs.c:445): read the metadata item of a data
page (`sffs_cached_read` at the item's address). -/
def sffs_get_page_metadata (fs : Sffs) (m : SffsMedium) (page : SffsPage) :
    SffsMetadataItem :=
  (m.getD page.sector sffsSectorDefault).items.getD page.page sffsItemDefault

/-- Count, among the data pages of a sector, those whose item state equals
`st` (one of the five `if (item.state == ...) p_x++;` tallies of
sffs_update_sector_metadata, src/sffs.c:395). -/
def sffsCountState (fs : Sffs) (m : SffsMedium) (sector st : Nat) : Nat :=
  ((List.range fs.data_pages_per_sector).filter
    (fun i => (sffs_get_page_metadata fs m ⟨sector, i⟩).state == st)).length

/-- The `if` chain of sffs_update_sector_metadata (src/sffs.c:406): each
matching condition overwrites `header.state` and sets `update_ok`, so the
LAST matching rule in program order determines the written state; `none`
models `update_ok == 0` (the `assert(0)` fallthrough). -/
def sffsDerivedSectorState (dpps p_erased p_reserved p_used p_moving p_old : Nat) :
    Option Nat :=
  let s1 : Option Nat :=
    if p_erased = dpps ∧ p_reserved = 0 ∧ p_used = 0 ∧ p_moving = 0 ∧ p_old = 0 then
      some SFFS_SECTOR_STATE_ERASED
    else none
  let s2 : Option Nat :=
    if p_erased > 0 ∧ (p_reserved > 0 ∨ p_used > 0 ∨ p_moving > 0 ∨ p_old > 0) then
      some SFFS_SECTOR_STATE_USED
    else s1
  let s3 : Option Nat :=
    if p_erased = 0 ∧ p_old = 0 then
      some SFFS_SECTOR_STATE_FULL
    else s2
  let s4 : Option Nat :=
    if p_erased = 0 ∧ p_reserved + p_used + p_moving + p_old = dpps then
      some SFFS_SECTOR_STATE_DIRTY
    else s3
  if p_old = dpps then some SFFS_SECTOR_STATE_OLD else s4

/-- sffs_update_sector_metadata (src/sffs.c:375): read and check the sector
header, tally the page states, derive the new header state from the `if`
chain, and rewrite the header; returns the new medium, the trace of medium
writes performed, and the status code. -/
def sffs_update_sector_metadata (fs : Sffs) (m : SffsMedium) (sector : Nat) :
    SffsMedium × List FlashWrite × Int :=
  let header := sffsReadHeader m sector
  if sffs_metadata_header_check fs header ≠ SFFS_METADATA_HEADER_CHECK_OK then
    (m, [], SFFS_UPDATE_SECTOR_METADATA_FAILED)
  else
    let p_erased := sffsCountState fs m sector SFFS_PAGE_STATE_ERASED
    let p_reserved := sffsCountState fs m sector SFFS_PAGE_STATE_RESERVED
    let p_used := sffsCountState fs m sector SFFS_PAGE_STATE_USED
    let p_moving := sffsCountState fs m sector SFFS_PAGE_STATE_MOVING
    let p_old := sffsCountState fs m sector SFFS_PAGE_STATE_OLD
    match sffsDerivedSectorState fs.data_pages_per_sector
        p_erased p_reserved p_used p_moving p_old with
    | some st =>
        let header' := { header with state := st }
        (sffsWriteHeader m sector header', [FlashWrite.headerWrite sector header'],
          SFFS_UPDATE_SECTOR_METADATA_OK)
    | none => (m, [], SFFS_UPDATE_SECTOR_METADATA_FAILED)

/-- sffs_set_page_metadata (src/sffs.c:457): write the item bytes, then call
sffs_update_sector_metadata on the sector (its return value is ignored by the
source, which returns `SFFS_SET_PAGE_MATEDATA_OK` unconditionally). -/
def sffs_set_page_metadata (fs : Sffs) (m : SffsMedium) (page : SffsPage)
    (item : SffsMetadataItem) : SffsMedium × List FlashWrite :=
  let m1 := sffsWriteItem m page.sector page.page item
  let r := sffs_update_sector_metadata fs m1 page.sector
  (r.1, FlashWrite.itemWrite page.sector page.page item :: r.2.1)

/-- sffs_set_page_state (src/sffs.c:471): read-modify-write of the item's
state byte via sffs_set_page_metadata. -/
def sffs_set_page_state (fs : Sffs) (m : SffsMedium) (page : SffsPage)
    (page_state : Nat) : SffsMedium × List FlashWrite :=
  let item := sffs_get_page_metadata fs m page
  sffs_set_page_metadata fs m page { item with state := page_state }

/-- The match condition of the sffs_find_page loop body (src/sffs.c:320):
the item's file id and block match and its state is USED or MOVING. -/
def sffsPageMatches (fs : Sffs) (m : SffsMedium) (file_id block sector i : Nat) :
    Bool :=
  let item := sffs_get_page_metadata fs m ⟨sector, i⟩
  item.file_id == file_id && item.block == block &&
    (item.state == SFFS_PAGE_STATE_USED || item.state == SFFS_PAGE_STATE_MOVING)

/-- sffs_find_page (src/sffs.c:301): iterate sectors 0,1,… and, within each,
data pages 0,1,…, returning the first page whose item matches; the per-sector
header read of the source has no effect (its ERASED skip is commented out).
`none` models SFFS_FIND_PAGE_NOT_FOUND. -/
def sffs_find_page (fs : Sffs) (m : SffsMedium) (file_id block : Nat) :
    Option SffsPage :=
  (List.range fs.sector_count).findSome? (fun sector =>
    (List.range fs.data_pages_per_sector).findSome? (fun i =>
      if sffsPageMatches fs m file_id block sector i then
        some ⟨sector, i⟩
      else
        none))

/-- sffs_find_erased_page (src/sffs.c:333): iterate sectors 0,1,…, skipping
sectors whose header state is DIRTY or FULL, and return the first data page
whose item state is ERASED; `none` models SFFS_FIND_ERASED_PAGE_NOT_FOUND. -/
def sffs_find_erased_page (fs : Sffs) (m : SffsMedium) : Option SffsPage :=
  (List.range fs.sector_count).findSome? (fun sector =>
    let header := sffsReadHeader m sector
    if header.state = SFFS_SECTOR_STATE_DIRTY ∨ header.state = SFFS_SECTOR_STATE_FULL then
      none
    else
      (List.range fs.data_pages_per_sector).findSome? (fun i =>
        if (sffs_get_page_metadata fs m ⟨sector, i⟩).state = SFFS_PAGE_STATE_ERASED then
          some ⟨sector, i⟩
        else
          none))

/-- The last logical block index touched by a write (src/sffs.c:528):
`(f->pos + len - 1) / page_size` in wrapping `uint32_t` arithmetic. -/
def sffs_write_b_end (fs : Sffs) (pos len : Nat) : Nat :=
  ((pos + len + 4294967295) % 4294967296) / fs.page_size

/-- Body and loop of sffs_write (src/sffs.c:531): one recursive step per
iteration of `for (i = b_start; i <= b_end; i++)`; `fuel` is the number of
remaining iterations (`b_end + 1 - i`), so `fuel = 0` is loop exit.  State:
medium `m` and accumulated write trace `tr`.  Mirrors the source body: find
the existing page (else a zero-filled fresh image), compute the merge
offsets (dead values: the source's data copy is left as a TODO), allocate an
erased page (else fail), pre-commit MOVING/RESERVED states, write the staged
data, retire the old page, commit the new item as USED. -/
def sffs_write_loop (fs : Sffs) (file_id pos len : Nat) (buf : List Nat) :
    Nat → Nat → SffsMedium → List FlashWrite → SffsMedium × List FlashWrite × Int
  | 0, _, m, tr => (m, tr, SFFS_WRITE_OK)
  | fuel + 1, i, m, tr =>
    let found := sffs_find_page fs m file_id i
    let loaded_old := found.isSome
    let page_data :=
      match found with
      | some page => sffsReadData m page.sector page.page
      | none => List.replicate fs.page_size 0
    let data_start := max pos ((i * fs.page_size) % 4294967296)
    let data_end :=
      min ((pos + len + 4294967295) % 4294967296)
        (((i + 1) * fs.page_size + 4294967295) % 4294967296)
    let source_offset := (data_start + 4294967296 - pos) % 4294967296
    let dest_offset := data_start % fs.page_size
    let dest_len := ((data_end + 4294967296 - data_start) % 4294967296 + 1) % 4294967296
    match sffs_find_erased_page fs m with
    | none => (m, tr, SFFS_WRITE_FAILED)
    | some new_page =>
      let s1 :=
        match found with
        | some page => sffs_set_page_state fs m page SFFS_PAGE_STATE_MOVING
        | none => (m, [])
      let s2 := sffs_set_page_state fs s1.1 new_page SFFS_PAGE_STATE_RESERVED
      let m3 := sffsWriteData s2.1 new_page.sector new_page.page page_data
      let w3 := [FlashWrite.dataWrite new_page.sector new_page.page page_data]
      let s4 :=
        match found with
        | some page => sffs_set_page_state fs m3 page SFFS_PAGE_STATE_OLD
        | none => (m3, [])
      let item : SffsMetadataItem :=
        { file_id := file_id, block := i, state := SFFS_PAGE_STATE_USED,
          size := fs.page_size, reserved := 0 }
      let s5 := sffs_set_page_metadata fs s4.1 new_page item
      sffs_write_loop fs file_id pos len buf fuel (i + 1) s5.1
        (tr ++ s1.2 ++ s2.2 ++ w3 ++ s4.2 ++ s5.2)

/-- sffs_write (src/sffs.c:516): fail when the session looks unopened
(`file_id == 0 || fs == NULL`); otherwise run the block loop from
`b_start = pos / page_size` through `b_end` and, on success, advance `pos`
by `len`.  Returns the updated session, the updated medium, the trace of
medium writes performed (in order), and the status code. -/
def sffs_write (f : SffsFile) (m : SffsMedium) (buf : List Nat) (len : Nat) :
    SffsFile × SffsMedium × List FlashWrite × Int :=
  match f.fs with
  | none => (f, m, [], SFFS_WRITE_FAILED)
  | some fs =>
    if f.file_id = 0 then
      (f, m, [], SFFS_WRITE_FAILED)
    else
      let b_start := f.pos / fs.page_size
      let b_end := sffs_write_b_end fs f.pos len
      let r := sffs_write_loop fs f.file_id f.pos len buf (b_end + 1 - b_start)
        b_start m []
      if r.2.2 = SFFS_WRITE_OK then
        ({ f with pos := (f.pos + len) % 4294967296 }, r.1, r.2.1, SFFS_WRITE_OK)
      else
        (f, r.1, r.2.1, SFFS_WRITE_FAILED)

/-- Test geometry: 1 sector of 64 bytes, 4-byte pages, 2 data pages per
sector (first_data_page = 64/4 - 2 = 14), as derived by sffs_mount. -/
def fsEx2 : Sffs :=
  { page_size := 4, sector_size := 64, sector_count := 1,
    data_pages_per_sector := 2, first_data_page := 14 }

/-- Test geometry with a single data page per sector. -/
def fsEx1 : Sffs :=
  { page_size := 4, sector_size := 64, sector_count := 1,
    data_pages_per_sector := 1, first_data_page := 15 }

/-- A freshly formatted metadata item (written by sffs_format,
src/sffs.c:169; the `reserved` byte stays at the erased value 0xFF). -/
def itemErased : SffsMetadataItem :=
  { file_id := 0xFFFF, block := 0xFFFF, state := SFFS_PAGE_STATE_ERASED,
    size := 0xFFFF, reserved := 0xFF }

/-- A freshly formatted sector header (written by sffs_format,
src/sffs.c:161; fields beyond magic and state are left TODO by the source,
modelled at the erased value 0xFF). -/
def headerFresh : SffsMetadataHeader :=
  { magic := SFFS_METADATA_MAGIC, state := SFFS_SECTOR_STATE_ERASED,
    metadata_page_count := 0xFF, metadata_item_cound := 0xFF, reserved := 0xFF }

/-- Freshly formatted single-sector medium with 2 data pages. -/
def mFresh2 : SffsMedium :=
  [⟨headerFresh, [itemErased, itemErased],
    [[255, 255, 255, 255], [255, 255, 255, 255]]⟩]

/-- Freshly formatted single-sector medium with 1 data page. -/
def mFresh1 : SffsMedium :=
  [⟨headerFresh, [itemErased], [[255, 255, 255, 255]]⟩]

/-- Medium holding one USED page for (file_id 1, block 0) with bytes
[5,6,7,8] and one erased page: the relocation scenario of a rewrite. -/
def mReloc : SffsMedium :=
  [⟨{ magic := SFFS_METADATA_MAGIC, state := SFFS_SECTOR_STATE_USED,
      metadata_page_count := 0xFF, metadata_item_cound := 0xFF, reserved := 0xFF },
    [{ file_id := 1, block := 0, state := SFFS_PAGE_STATE_USED, size := 4,
       reserved := 0xFF }, itemErased],
    [[5, 6, 7, 8], [255, 255, 255, 255]]⟩]

/-- Medium whose data pages are all USED (blocks 0 and 1 of file 1). -/
def mAllUsed : SffsMedium :=
  [⟨{ magic := SFFS_METADATA_MAGIC, state := SFFS_SECTOR_STATE_USED,
      metadata_page_count := 0xFF, metadata_item_cound := 0xFF, reserved := 0xFF },
    [{ file_id := 1, block := 0, state := SFFS_PAGE_STATE_USED, size := 4,
       reserved := 0xFF },
     { file_id := 1, block := 1, state := SFFS_PAGE_STATE_USED, size := 4,
       reserved := 0xFF }],
    [[0, 0, 0, 0], [0, 0, 0, 0]]⟩]

/-- Medium left by a crash between commit and retire: page 0 is a MOVING
item for (file 1, block 0) and page 1 a USED item for the same key. -/
def mTwin : SffsMedium :=
  [⟨{ magic := SFFS_METADATA_MAGIC, state := SFFS_SECTOR_STATE_USED,
      metadata_page_count := 0xFF, metadata_item_cound := 0xFF, reserved := 0xFF },
    [{ file_id := 1, block := 0, state := SFFS_PAGE_STATE_MOVING, size := 4,
       reserved := 0xFF },
     { file_id := 1, block := 0, state := SFFS_PAGE_STATE_USED, size := 4,
       reserved := 0xFF }],
    [[1, 2, 3, 4], [9, 9, 9, 9]]⟩]

/-- Session for file 1 at position 0 on the 2-page geometry. -/
def fEx2 : SffsFile := { pos := 0, file_id := 1, fs := some fsEx2 }

/-- Session for file 1 at position 0 on the 1-page geometry. -/
def fEx1 : SffsFile := { pos := 0, file_id := 1, fs := some fsEx1 }

/-- Helper: a `findSome?` over `List.range n` yields the value at the first
index whose function value is `some`. -/
lemma findSome?_range_first {β : Type} {f : Nat → Option β} {n k : Nat} {v : β}
    (hk : k < n) (hv : f k = some v) (hnone : ∀ j < k, f j = none) :
    (List.range n).findSome? f = some v := by
  induction n with
  | zero => omega
  | succ n ih =>
    rw [List.range_succ, List.findSome?_append]
    rcases Nat.lt_or_ge k n with h | h
    · rw [ih h]
      rfl
    · have hkn : k = n := by omega
      subst hkn
      have h0 : (List.range k).findSome? f = none :=
        List.findSome?_eq_none_iff.mpr (fun j hj => hnone j (List.mem_range.mp hj))
      rw [h0]
      simp [List.findSome?, hv]

/-- Helper: counting five pairwise distinct state codes over a list of items
whose states all lie among those codes accounts for every item. -/
lemma filter_states_length {α : Type} {l : List α} {f : α → Nat}
    (h : ∀ x ∈ l, f x = SFFS_PAGE_STATE_ERASED ∨ f x = SFFS_PAGE_STATE_RESERVED ∨
      f x = SFFS_PAGE_STATE_USED ∨ f x = SFFS_PAGE_STATE_MOVING ∨
      f x = SFFS_PAGE_STATE_OLD) :
    ((l.filter (fun x => f x == SFFS_PAGE_STATE_ERASED)).length +
      (l.filter (fun x => f x == SFFS_PAGE_STATE_RESERVED)).length +
      (l.filter (fun x => f x == SFFS_PAGE_STATE_USED)).length +
      (l.filter (fun x => f x == SFFS_PAGE_STATE_MOVING)).length +
      (l.filter (fun x => f x == SFFS_PAGE_STATE_OLD)).length) = l.length := by
  induction l with
  | nil => simp
  | cons a l ih =>
    have ha := h a (List.mem_cons_self a l)
    have hl := ih (fun x hx => h x (List.mem_cons_of_mem a hx))
    rcases ha with ha | ha | ha | ha | ha <;>
      simp +decide [List.filter_cons, ha] <;> omega

/-- Helper: when the five per-state tallies account for every data page, at
least one rule of the sector-state `if` chain matches. -/
lemma sffsDerivedSectorState_isSome (dpps a b c d e : Nat)
    (hsum : a + b + c + d + e = dpps) :
    (sffsDerivedSectorState dpps a b c d e).isSome := by
  simp only [sffsDerivedSectorState]
  split
  · simp
  · split
    · simp
    · split
      · simp
      · split
        · simp
        · split
          · simp
          · exfalso
            omega

/-- The match predicate in the spec's words (§4.3): the item's
`file_id == file_id`, `block == block`, and `state ∈ {USED, MOVING}`. -/
def specPageMatch (fs : Sffs) (m : SffsMedium) (file_id block : Nat)
    (p : SffsPage) : Prop :=
  (sffs_get_page_metadata fs m p).file_id = file_id ∧
    (sffs_get_page_metadata fs m p).block = block ∧
    ((sffs_get_page_metadata fs m p).state = SFFS_PAGE_STATE_USED ∨
      (sffs_get_page_metadata fs m p).state = SFFS_PAGE_STATE_MOVING)

instance (fs : Sffs) (m : SffsMedium) (file_id block : Nat) (p : SffsPage) :
    Decidable (specPageMatch fs m file_id block p) := by
  unfold specPageMatch
  infer_instance

/-- The lookup specified by §4.3 of the spec, in its own words: list the
data-page coordinates, sectors in ascending order and pages within a sector
in ascending index, and return the first that matches. -/
def findPageSpec (fs : Sffs) (m : SffsMedium) (file_id block : Nat) :
    Option SffsPage :=
  ((List.range fs.sector_count).flatMap (fun sector =>
    (List.range fs.data_pages_per_sector).map (fun i => (⟨sector, i⟩ : SffsPage)))).find?
    (fun p => decide (specPageMatch fs m file_id block p))

/-- Helper: the source's loop condition and the spec's wording denote the
same predicate. -/
lemma sffsPageMatches_eq_spec (fs : Sffs) (m : SffsMedium)
    (file_id block sector i : Nat) :
    sffsPageMatches fs m file_id block sector i =
      decide (specPageMatch fs m file_id block ⟨sector, i⟩) := by
  simp only [sffsPageMatches, specPageMatch]
  rw [Bool.eq_iff_iff]
  simp [and_assoc]

/-- Helper: the embedded sffs_find_page equals the spec-worded first-match
lookup. -/
lemma sffs_find_page_eq_findPageSpec (fs : Sffs) (m : SffsMedium)
    (file_id block : Nat) :
    sffs_find_page fs m file_id block = findPageSpec fs m file_id block := by
  unfold sffs_find_page findPageSpec
  rw [List.find?_flatMap]
  congr 1
  funext sector
  rw [← List.findSome?_guard, List.findSome?_map]
  congr 1
  funext i
  simp only [Function.comp, Option.guard, sffsPageMatches_eq_spec]

/-- C1: the claim says sffs_write copies `buf[src_off .. src_off+n]` into the
staged page image before writing it out.  The code never performs that copy
(the body carries a `TODO: write actual data`, src/sffs.c:576): on a fresh
filesystem, writing the single byte 9 at position 0 succeeds and commits the
new page for (file 1, block 0), yet the page image written to the medium is
the all-zero scratch buffer — its byte at dst_off = 0 is 0, not the caller's
byte buf[src_off] = 9. -/
theorem sffs_write_drops_buffer_bytes :
    (sffs_write fEx2 mFresh2 [9] 1).2.2.2 = SFFS_WRITE_OK ∧
    sffs_get_page_metadata fsEx2 (sffs_write fEx2 mFresh2 [9] 1).2.1 ⟨0, 0⟩ =
      { file_id := 1, block := 0, state := SFFS_PAGE_STATE_USED, size := 4,
        reserved := 0 } ∧
    sffsReadData (sffs_write fEx2 mFresh2 [9] 1).2.1 0 0 = [0, 0, 0, 0] ∧
    (sffsReadData (sffs_write fEx2 mFresh2 [9] 1).2.1 0 0).getD 0 0 ≠
      [9].getD 0 0 := by
  decide

/-- C2: the claim says that when a write relocates an existing page the new
metadata item is committed USED before the old page is marked OLD.  The
trace of medium writes of a relocating call shows the converse order: after
MOVING (event 1), RESERVED (event 3) and the data write (event 5), the old
page is set OLD (event 6) and only afterwards is the new item committed
USED (event 8) — src/sffs.c:598 runs before src/sffs.c:606. -/
theorem sffs_write_retires_old_before_commit :
    (sffs_write fEx2 mReloc [1, 2, 3, 4] 4).2.2.1 =
      [FlashWrite.itemWrite 0 0
          { file_id := 1, block := 0, state := SFFS_PAGE_STATE_MOVING,
            size := 4, reserved := 0xFF },
        FlashWrite.headerWrite 0
          { magic := SFFS_METADATA_MAGIC, state := SFFS_SECTOR_STATE_USED,
            metadata_page_count := 0xFF, metadata_item_cound := 0xFF,
            reserved := 0xFF },
        FlashWrite.itemWrite 0 1
          { file_id := 0xFFFF, block := 0xFFFF,
            state := SFFS_PAGE_STATE_RESERVED, size := 0xFFFF,
            reserved := 0xFF },
        FlashWrite.headerWrite 0
          { magic := SFFS_METADATA_MAGIC, state := SFFS_SECTOR_STATE_DIRTY,
            metadata_page_count := 0xFF, metadata_item_cound := 0xFF,
            reserved := 0xFF },
        FlashWrite.dataWrite 0 1 [5, 6, 7, 8],
        FlashWrite.itemWrite 0 0
          { file_id := 1, block := 0, state := SFFS_PAGE_STATE_OLD,
            size := 4, reserved := 0xFF },
        FlashWrite.headerWrite 0
          { magic := SFFS_METADATA_MAGIC, state := SFFS_SECTOR_STATE_DIRTY,
            metadata_page_count := 0xFF, metadata_item_cound := 0xFF,
            reserved := 0xFF },
        FlashWrite.itemWrite 0 1
          { file_id := 1, block := 0, state := SFFS_PAGE_STATE_USED,
            size := 4, reserved := 0 },
        FlashWrite.headerWrite 0
          { magic := SFFS_METADATA_MAGIC, state := SFFS_SECTOR_STATE_DIRTY,
            metadata_page_count := 0xFF, metadata_item_cound := 0xFF,
            reserved := 0xFF }] := by
  decide

/-- C3: the claim says a sector with no ERASED and no OLD data page gets
header state FULL because the first matching rule wins.  In the code the
rules are successive non-exclusive `if`s (src/sffs.c:408-431), so the LAST
matching rule wins: for a sector whose two pages are both USED, the FULL
rule (src/sffs.c:418) matches but the DIRTY rule (src/sffs.c:423, which has
no any-OLD requirement) also matches and overwrites it, and the header is
written DIRTY, not FULL. -/
theorem sffs_update_full_sector_marked_dirty :
    sffsCountState fsEx2 mAllUsed 0 SFFS_PAGE_STATE_ERASED = 0 ∧
    sffsCountState fsEx2 mAllUsed 0 SFFS_PAGE_STATE_OLD = 0 ∧
    (sffs_update_sector_metadata fsEx2 mAllUsed 0).2.2 =
      SFFS_UPDATE_SECTOR_METADATA_OK ∧
    (sffsReadHeader (sffs_update_sector_metadata fsEx2 mAllUsed 0).1 0).state =
      SFFS_SECTOR_STATE_DIRTY ∧
    SFFS_SECTOR_STATE_DIRTY ≠ SFFS_SECTOR_STATE_FULL := by
  decide

/-- C4 counterexample: on a medium where page (0,0) is a MOVING item for
(file 1, block 0) and page (0,1) a USED item for the same key, sffs_find_page
returns the MOVING page (0,0): there is no second pass preferring the USED
duplicate and no recovery marking (the function writes nothing). -/
theorem sffs_find_page_moving_counterexample :
    (sffs_get_page_metadata fsEx2 mTwin ⟨0, 0⟩).state = SFFS_PAGE_STATE_MOVING ∧
    sffs_get_page_metadata fsEx2 mTwin ⟨0, 1⟩ =
      { file_id := 1, block := 0, state := SFFS_PAGE_STATE_USED, size := 4,
        reserved := 0xFF } ∧
    sffs_find_page fsEx2 mTwin 1 0 = some ⟨0, 0⟩ ∧
    (⟨0, 0⟩ : SffsPage) ≠ ⟨0, 1⟩ := by
  decide

/-- C5 counterexample: a two-block write on a fresh one-data-page medium
fails (the second block finds no erased page) with return SFFS_WRITE_FAILED,
yet the medium has been mutated by the first block: item (0,0) is committed
USED and the sector header is no longer in its pre-call state. -/
theorem sffs_write_failed_mutates_medium :
    (sffs_write fEx1 mFresh1 [1, 2, 3, 4, 5, 6, 7, 8] 8).2.2.2 =
      SFFS_WRITE_FAILED ∧
    (sffs_write fEx1 mFresh1 [1, 2, 3, 4, 5, 6, 7, 8] 8).2.1 ≠ mFresh1 ∧
    (sffs_get_page_metadata fsEx1
      (sffs_write fEx1 mFresh1 [1, 2, 3, 4, 5, 6, 7, 8] 8).2.1 ⟨0, 0⟩).state =
      SFFS_PAGE_STATE_USED := by
  decide

/-- C7 counterexample: a header whose magic is valid but whose
metadata_page_count (0xFF) is not below sector_size / page_size (= 16) is
accepted by sffs_metadata_header_check: the code checks only the magic
(src/sffs.c:247), so the claimed metadata_page_count condition is not part
of the check. -/
theorem sffs_metadata_header_check_ignores_page_count :
    sffs_metadata_header_check fsEx2 headerFresh =
      SFFS_METADATA_HEADER_CHECK_OK ∧
    ¬ headerFresh.metadata_page_count < fsEx2.sector_size / fsEx2.page_size := by
  decide

/-- C6: sffs_find_page iterates sectors in ascending order and data pages
within each sector in ascending index and returns the first matching item
(state USED or MOVING); it returns none (SFFS_FIND_PAGE_NOT_FOUND) exactly
when no data page on the medium matches. -/
theorem sffs_find_page_first_match (fs : Sffs) (m : SffsMedium)
    (file_id block : Nat) :
    sffs_find_page fs m file_id block = findPageSpec fs m file_id block ∧
      (sffs_find_page fs m file_id block = none ↔
        ∀ sector < fs.sector_count, ∀ i < fs.data_pages_per_sector,
          ¬ specPageMatch fs m file_id block ⟨sector, i⟩) := by
  refine ⟨sffs_find_page_eq_findPageSpec fs m file_id block, ?_⟩
  rw [sffs_find_page_eq_findPageSpec]
  unfold findPageSpec
  rw [List.find?_eq_none]
  simp only [List.mem_flatMap, List.mem_range, List.mem_map, decide_eq_true_eq]
  constructor
  · rintro h s hs i hi
    exact h ⟨s, i⟩ ⟨s, hs, i, hi, rfl⟩
  · rintro h p ⟨s, hs, i, hi, rfl⟩
    exact h s hs i hi

/-- Witness for C6 at a concrete filesystem state. -/
theorem sffs_find_page_first_match_witness :
    sffs_find_page fsEx2 mReloc 1 0 = findPageSpec fsEx2 mReloc 1 0 :=
  (sffs_find_page_first_match fsEx2 mReloc 1 0).1

/-- C4 amended: sffs_find_page performs a single pass; when the first
matching item in ascending sector/page order is a MOVING page and a later
USED item exists for the same key, it still returns the MOVING page (and,
being read-only, performs no recovery marking). -/
theorem sffs_find_page_single_pass (fs : Sffs) (m : SffsMedium)
    (file_id block s i s' i' : Nat)
    (hs : s < fs.sector_count) (hi : i < fs.data_pages_per_sector)
    (hmatch : specPageMatch fs m file_id block ⟨s, i⟩)
    (hmov : (sffs_get_page_metadata fs m ⟨s, i⟩).state = SFFS_PAGE_STATE_MOVING)
    (hbefore : ∀ s₀ i₀, s₀ < fs.sector_count → i₀ < fs.data_pages_per_sector →
      (s₀ < s ∨ (s₀ = s ∧ i₀ < i)) → ¬ specPageMatch fs m file_id block ⟨s₀, i₀⟩)
    (hs' : s' < fs.sector_count) (hi' : i' < fs.data_pages_per_sector)
    (hlater : s < s' ∨ (s = s' ∧ i < i'))
    (hused : specPageMatch fs m file_id block ⟨s', i'⟩)
    (hstate' : (sffs_get_page_metadata fs m ⟨s', i'⟩).state = SFFS_PAGE_STATE_USED) :
    sffs_find_page fs m file_id block = some ⟨s, i⟩ ∧
      (⟨s, i⟩ : SffsPage) ≠ ⟨s', i'⟩ := by
  constructor
  · unfold sffs_find_page
    apply findSome?_range_first hs
    · apply findSome?_range_first hi
      · rw [if_pos]
        rw [sffsPageMatches_eq_spec]
        exact decide_eq_true hmatch
      · intro j hj
        rw [if_neg]
        rw [sffsPageMatches_eq_spec]
        simp only [decide_eq_true_eq]
        exact hbefore s j hs (by omega) (Or.inr ⟨rfl, hj⟩)
    · intro s₀ hs₀
      apply List.findSome?_eq_none_iff.mpr
      intro i₀ hi₀
      rw [if_neg]
      rw [sffsPageMatches_eq_spec]
      simp only [decide_eq_true_eq]
      exact hbefore s₀ i₀ (by omega) (List.mem_range.mp hi₀) (Or.inl hs₀)
  · intro heq
    have h1 : s = s' := congrArg SffsPage.sector heq
    have h2 : i = i' := congrArg SffsPage.page heq
    omega

/-- Witness for C4's amended claim on the crashed-twin medium. -/
theorem sffs_find_page_single_pass_witness :
    sffs_find_page fsEx2 mTwin 1 0 = some ⟨0, 0⟩ ∧
      (⟨0, 0⟩ : SffsPage) ≠ ⟨0, 1⟩ :=
  sffs_find_page_single_pass fsEx2 mTwin 1 0 0 0 0 1
    (by decide) (by decide) (by decide) (by decide)
    (fun s₀ i₀ _ _ h => absurd h (by omega))
    (by decide) (by decide) (by omega) (by decide) (by decide)

/-- C5 amended: when sffs_write returns SFFS_WRITE_FAILED the session is
returned unchanged (`f->pos` keeps its pre-call value, src/sffs.c only adds
`len` after the loop succeeds); the medium, however, keeps any mutations
made by already-processed blocks. -/
theorem sffs_write_failed_pos_unchanged (f : SffsFile) (m : SffsMedium)
    (buf : List Nat) (len : Nat)
    (h : (sffs_write f m buf len).2.2.2 = SFFS_WRITE_FAILED) :
    (sffs_write f m buf len).1 = f := by
  obtain ⟨pos, fid, fsopt⟩ := f
  cases fsopt with
  | none => rfl
  | some fs =>
    by_cases hid : fid = 0
    · simp [sffs_write, hid]
    · simp only [sffs_write, hid, if_false] at h ⊢
      split at h
      · simp [SFFS_WRITE_OK, SFFS_WRITE_FAILED] at h
      · split
        · simp_all
        · rfl

/-- Witness for C5's amended claim at the failing two-block write. -/
theorem sffs_write_failed_pos_unchanged_witness :
    (sffs_write fEx1 mFresh1 [9, 9, 9, 9, 9, 9, 9, 9] 8).2.2.2 =
      SFFS_WRITE_FAILED ∧
    (sffs_write fEx1 mFresh1 [9, 9, 9, 9, 9, 9, 9, 9] 8).1 = fEx1 :=
  ⟨by decide,
    sffs_write_failed_pos_unchanged fEx1 mFresh1 [9, 9, 9, 9, 9, 9, 9, 9] 8
      (by decide)⟩

/-- C7 amended: sffs_metadata_header_check succeeds exactly when the magic
matches SFFS_METADATA_MAGIC; metadata_page_count is not examined. -/
theorem sffs_metadata_header_check_magic_only (fs : Sffs)
    (header : SffsMetadataHeader) :
    sffs_metadata_header_check fs header = SFFS_METADATA_HEADER_CHECK_OK ↔
      header.magic = SFFS_METADATA_MAGIC := by
  unfold sffs_metadata_header_check
  by_cases h : header.magic = SFFS_METADATA_MAGIC <;> simp +decide [h]

/-- C8: on a sector whose header magic is valid and whose data-page states
all carry one of the five defined codes, the five tallies account for every
data page, at least one derivation rule matches, so the `assert(0)` branch
is unreachable and the function returns OK. -/
theorem sffs_update_sector_metadata_total (fs : Sffs) (m : SffsMedium)
    (sector : Nat)
    (hmagic : (sffsReadHeader m sector).magic = SFFS_METADATA_MAGIC)
    (hstates : ∀ i < fs.data_pages_per_sector,
      (sffs_get_page_metadata fs m ⟨sector, i⟩).state = SFFS_PAGE_STATE_ERASED ∨
      (sffs_get_page_metadata fs m ⟨sector, i⟩).state = SFFS_PAGE_STATE_RESERVED ∨
      (sffs_get_page_metadata fs m ⟨sector, i⟩).state = SFFS_PAGE_STATE_USED ∨
      (sffs_get_page_metadata fs m ⟨sector, i⟩).state = SFFS_PAGE_STATE_MOVING ∨
      (sffs_get_page_metadata fs m ⟨sector, i⟩).state = SFFS_PAGE_STATE_OLD) :
    (sffs_update_sector_metadata fs m sector).2.2 =
      SFFS_UPDATE_SECTOR_METADATA_OK := by
  have hsum : sffsCountState fs m sector SFFS_PAGE_STATE_ERASED +
      sffsCountState fs m sector SFFS_PAGE_STATE_RESERVED +
      sffsCountState fs m sector SFFS_PAGE_STATE_USED +
      sffsCountState fs m sector SFFS_PAGE_STATE_MOVING +
      sffsCountState fs m sector SFFS_PAGE_STATE_OLD =
      fs.data_pages_per_sector := by
    unfold sffsCountState
    have hlen := filter_states_length
      (l := List.range fs.data_pages_per_sector)
      (f := fun i => (sffs_get_page_metadata fs m ⟨sector, i⟩).state)
      (fun i hi => hstates i (List.mem_range.mp hi))
    simpa using hlen
  have hchk : sffs_metadata_header_check fs (sffsReadHeader m sector) =
      SFFS_METADATA_HEADER_CHECK_OK := by
    unfold sffs_metadata_header_check
    rw [if_neg (by simp [hmagic])]
  unfold sffs_update_sector_metadata
  rw [if_neg (by simp [hchk])]
  have hsome := sffsDerivedSectorState_isSome fs.data_pages_per_sector _ _ _ _ _ hsum
  obtain ⟨st, hst⟩ := Option.isSome_iff_exists.mp hsome
  simp only [hst]

/-- Witness for C8 on the freshly formatted two-page sector. -/
theorem sffs_update_sector_metadata_total_witness :
    (sffs_update_sector_metadata fsEx2 mFresh2 0).2.2 =
      SFFS_UPDATE_SECTOR_METADATA_OK :=
  sffs_update_sector_metadata_total fsEx2 mFresh2 0 (by decide) (by decide)

/-- C9: with len = 0 the u32 computation `(pos + len - 1) / page_size`
wraps, so for pos = 0 the loop's last block index b_end is
(2^32 - 1) / page_size; the call does not return with the medium unchanged:
on a fresh one-page medium it allocates and commits pages for blocks 0,…
until the medium is full and then fails, mutating the medium. -/
theorem sffs_write_len_zero_wraps :
    (∀ fs : Sffs, sffs_write_b_end fs 0 0 = 4294967295 / fs.page_size) ∧
    fEx1.pos = 0 ∧
    (sffs_write fEx1 mFresh1 [] 0).2.2.2 = SFFS_WRITE_FAILED ∧
    (sffs_write fEx1 mFresh1 [] 0).2.1 ≠ mFresh1 := by
  refine ⟨fun fs => ?_, by decide, by decide, by decide⟩
  unfold sffs_write_b_end
  norm_num

/-- C10: a session with file_id 0 or a NULL filesystem pointer is rejected
immediately: sffs_write returns SFFS_WRITE_FAILED with the session, the
medium and the (empty) write trace untouched. -/
theorem sffs_write_unopened_session_rejected (f : SffsFile) (m : SffsMedium)
    (buf : List Nat) (len : Nat) (h : f.file_id = 0 ∨ f.fs = none) :
    sffs_write f m buf len = (f, m, [], SFFS_WRITE_FAILED) := by
  cases hfs : f.fs with
  | none => simp [sffs_write, hfs]
  | some fs =>
    have hid : f.file_id = 0 := by
      rcases h with h | h
      · exact h
      · rw [hfs] at h
        exact absurd h (by simp)
    simp [sffs_write, hfs, hid]

/-- Witness for C10 with a file_id-0 session. -/
theorem sffs_write_unopened_session_rejected_witness :
    sffs_write { pos := 7, file_id := 0, fs := some fsEx2 } mFresh2 [1] 1 =
      ({ pos := 7, file_id := 0, fs := some fsEx2 }, mFresh2, [],
        SFFS_WRITE_FAILED) :=
  sffs_write_unopened_session_rejected
    { pos := 7, file_id := 0, fs := some fsEx2 } mFresh2 [1] 1 (Or.inl rfl)
